import Mathlib

/-
  Verification development for the AWS IoT Defender report collector
  (libraries/c_sdk/aws/defender/src/aws_iot_defender_collector.c).

  The collector builds one structured telemetry report in two passes over a
  single shared serialization routine: a dry (sizing) pass against a null
  buffer, then a real (writing) pass against an exactly-sized buffer.  We
  shallowly embed the serialization logic as Lean functions producing a
  document tree (one tree node per encoder container call, one leaf per
  appendKeyValue call), and the report lifecycle (CreateReport /
  DeleteReport) as an explicit state-passing function.

  C unsigned 32-bit arithmetic is modelled on Nat with explicit wrap for
  subtraction; C division is fallible (Option), with division by zero
  returning none (undefined behavior in the source).
-/

namespace Defender

/-- C unsigned integer division `a / b`; division by zero is undefined
behavior in C, modelled as `none`. -/
def cDiv (a b : Nat) : Option Nat :=
  if b = 0 then none else some (a / b)

/-- C `uint32_t` subtraction `a - b` (wraps modulo 2^32); both arguments are
assumed to be values of `uint32_t`, i.e. below 2^32. -/
def sub32 (a b : Nat) : Nat :=
  (a + 2 ^ 32 - b) % 2 ^ 32

/-- Scalar values passed to the encoder: `IotSerializer_ScalarSignedInt`
(with `none` marking a value whose computation was undefined behavior) or
`IotSerializer_ScalarTextString`. -/
inductive Scalar where
  | sint (v : Option Int)
  | text (s : String)
deriving DecidableEq

/-- Container kind of an encoder container (CBOR map or array). -/
inductive CKind where
  | map
  | array
deriving DecidableEq

/-- Document tree produced by one serialization pass: a `node` records one
`openContainer`/`openContainerWithKey` call (key is `""` for the keyless
`openContainer`) together with the declared child count passed to that call
and the children subsequently appended before the matching `closeContainer`;
a `leaf` records one `appendKeyValue` call. -/
inductive Doc where
  | leaf (key : String) (v : Scalar)
  | node (key : String) (kind : CKind) (declared : Nat) (children : List Doc)

/- Report tag strings (long form of AwsIotDefenderInternal_SelectTag). -/

def HEADER_TAG : String := "header"
def REPORTID_TAG : String := "report_id"
def VERSION_TAG : String := "version"
def VERSION_1_1 : String := "1.1"
def METRICS_TAG : String := "metrics"
def TCP_CONN_TAG : String := "tcp_connections"
def EST_CONN_TAG : String := "established_connections"
def TOTAL_TAG : String := "total"
def CONN_TAG : String := "connections"
def REMOTE_ADDR_TAG : String := "remote_addr"
def KERNEL_METIRCS : String := "kernel_metrics"
def KERNEL_MCU_UPTIME : String := "mcu_uptime"
def KERNEL_MCU_UTILIZATION : String := "mcu_utilization"
def KERNEL_HEAP_FREE_SIZE : String := "heap_free_size"
def KERNEL_HEAP_LARGEST_FREE : String := "heap_largest_free_block"
def KERNEL_HEAP_SMALLEST_FREE : String := "heap_smallest_free_block"
def KERNEL_HEAP_NUM_OF_FREE : String := "heap_free_blocks"
def KERNEL_HEAP_LOW_WATERMARK : String := "heap_low_watermark"
def KERNEL_HEAP_SUCCESSFUL_ALLOC : String := "heap_succ_alloc"
def KERNEL_HEAP_SUCCESSFUL_FREE : String := "heap_succ_free"
def KERNEL_NUM_OF_TASKS : String := "num_of_tasks"
def KERNEL_TASK_DETAILS : String := "task_details"
def KERNEL_TASK_ID : String := "task_id"
def KERNEL_TASK_NAME : String := "task_name"
def KERNEL_TASK_STATUS : String := "task_status"
def KERNEL_TASK_PRIORITY : String := "task_priority"
def KERNEL_TASK_ABS_CYCLES : String := "task_abs_cycles"
def KERNEL_TASK_PERCENTAGE : String := "task_percentage"
def KERNEL_STACK_HIGH_WATERMARK : String := "stack_high_watermark"
def DEVICE_TYPE : String := "device_type"

/-- configPLATFORM_NAME (platform configuration constant; exact value
immaterial to every property proved here). -/
def configPLATFORM_NAME : String := "Unknown"

/-- Return value TASK_NAME_EQUAL of _taskNameFilterIdle. -/
def TASK_NAME_EQUAL : Nat := 1

/-- Return value TASK_NAME_NOT_EQUAL of _taskNameFilterIdle. -/
def TASK_NAME_NOT_EQUAL : Nat := 0

/-- Modelled from the spec: the TCP-connections group sub-flag bits of the
snapshot mask.  The header defining the numeric bit constants
(AWS_IOT_DEFENDER_METRICS_TCP_CONNECTIONS_ESTABLISHED and its sub-bits) is
not part of the source under verification; the spec presents the group as
four sub-flags {EstablishedEnabled, ConnectionsEnabled, TotalEnabled,
RemoteAddrEnabled} that are set independently, so the mask's relevant bits
are modelled as four independent Booleans. -/
structure TcpFlags where
  established : Bool
  connections : Bool
  total : Bool
  remoteAddr : Bool
deriving DecidableEq

/-- The TCP group's snapshot mask is nonzero, i.e. at least one sub-flag bit
is set (`_metricsFlagSnapshot[ AWS_IOT_DEFENDER_METRICS_TCP_CONNECTIONS ] > 0`). -/
def TcpFlags.nonzero (f : TcpFlags) : Bool :=
  f.established || f.connections || f.total || f.remoteAddr

/-- One build's flag snapshot (_metricsFlagSnapshot): the TCP-connections
group's sub-flag bits, and whether the task-runtime-stats group's mask is
nonzero (its sub-bits are never examined by the collector). -/
structure FlagSnapshot where
  tcp : TcpFlags
  kernelEnabled : Bool
deriving DecidableEq

/-- One TaskStatus_t record as returned by uxTaskGetSystemState.  The task
name is the content of the NUL-terminated `pcTaskName` C string (characters
strictly before the terminator). -/
structure TaskStatus where
  xTaskNumber : Nat
  pcTaskName : List Char
  eCurrentState : Nat
  uxCurrentPriority : Nat
  ulRunTimeCounter : Nat
  usStackHighWaterMark : Nat
deriving DecidableEq

/-- One HeapStats_t record as returned by vPortGetHeapStats. -/
structure HeapStats where
  xAvailableHeapSpaceInBytes : Nat
  xSizeOfLargestFreeBlockInBytes : Nat
  xSizeOfSmallestFreeBlockInBytes : Nat
  xNumberOfFreeBlocks : Nat
  xMinimumEverFreeBytesRemaining : Nat
  xNumberOfSuccessfulAllocations : Nat
  xNumberOfSuccessfulFrees : Nat
deriving DecidableEq

/-- Live statistics read during one serialization pass: the TCP connection
list (remote address of each connection, in enumeration order), the task
array, the total elapsed run time (ulTotalTime, uint32), and heap stats. -/
structure Stats where
  tcpConnections : List String
  tasks : List TaskStatus
  totalRunTime : Nat
  heap : HeapStats
deriving DecidableEq

/-- Character at `index` of a NUL-terminated C string whose content before
the terminator is `s`: in-bounds reads return the content, the read at
`s.length` returns the terminator.  (_taskNameFilterIdle never reads past
the first terminator of either string, so reads beyond it never occur.) -/
def cChar (s : List Char) (index : Nat) : Char :=
  s.getD index (Char.ofNat 0)

/-- Content of the local `char idleName[] = "IDLE"` of _taskNameFilterIdle. -/
def idleName : List Char := ['I', 'D', 'L', 'E']

/-- The loop of _taskNameFilterIdle at position `index` with `fuel`
iterations remaining (`fuel = configMAX_TASK_NAME_LEN - index`, so the loop
guard `index < configMAX_TASK_NAME_LEN` becomes `0 < fuel`): scans while
characters match and neither string has terminated; returns TASK_NAME_EQUAL
when both strings terminate at the same position within the bound,
TASK_NAME_NOT_EQUAL otherwise (mismatch, one-sided terminator, or loop
bound exhausted). -/
def taskNameFilterIdleGo (strA : List Char) : Nat → Nat → Nat
  | _, 0 => TASK_NAME_NOT_EQUAL
  | index, fuel + 1 =>
    if cChar strA index = Char.ofNat 0 ∧ cChar idleName index = Char.ofNat 0 then
      TASK_NAME_EQUAL
    else if cChar strA index = Char.ofNat 0 ∨ cChar idleName index = Char.ofNat 0
            ∨ cChar strA index ≠ cChar idleName index then
      TASK_NAME_NOT_EQUAL
    else
      taskNameFilterIdleGo strA (index + 1) fuel

/-- _taskNameFilterIdle: compares the task name against the reserved idle
name "IDLE", character by character, from index 0 up to
configMAX_TASK_NAME_LEN (`maxLen`). -/
def taskNameFilterIdle (maxLen : Nat) (strA : List Char) : Nat :=
  taskNameFilterIdleGo strA 0 maxLen

/-- The loop body of _serializeTcpConnections's IotContainers_ForEach: one
entry of the "connections" array — a keyless map opened with declared child
count `hasRemoteAddr` (0 or 1), holding a "remote_addr" leaf iff
`hasRemoteAddr`. -/
def serializeConnectionRecord (hasRemoteAddr : Bool) (addr : String) : Doc :=
  Doc.node "" CKind.map hasRemoteAddr.toNat
    (if hasRemoteAddr then [Doc.leaf REMOTE_ADDR_TAG (Scalar.text addr)] else [])

/-- _serializeTcpConnections: opens the "tcp_connections" map declaring 1
child; iff `hasEstablishedConnections`, opens the "established_connections"
map declaring `hasConnections + hasTotal` children, holding the
"connections" array (one record per connection) iff `hasConnections` (the
sub-flag is set and there is at least one connection) and the "total" leaf
iff `hasTotal`. -/
def serializeTcpConnections (snapshot : FlagSnapshot) (conns : List String) : Doc :=
  let total := conns.length
  let hasEstablishedConnections : Bool := snapshot.tcp.established
  let hasConnections : Bool := snapshot.tcp.connections && decide (0 < total)
  let hasTotal : Bool := snapshot.tcp.total
  let hasRemoteAddr : Bool := snapshot.tcp.remoteAddr
  Doc.node TCP_CONN_TAG CKind.map 1
    (if hasEstablishedConnections then
      [Doc.node EST_CONN_TAG CKind.map (hasConnections.toNat + hasTotal.toNat)
        ((if hasConnections then
            [Doc.node CONN_TAG CKind.array total
              (conns.map (serializeConnectionRecord hasRemoteAddr))]
          else []) ++
         (if hasTotal then
            [Doc.leaf TOTAL_TAG (Scalar.sint (some (total : Int)))]
          else []))]
     else [])

/-- The per-task value `ulRunTimeCounter / ( ulTotalTime / 100 )` appended
under KERNEL_TASK_PERCENTAGE; division by zero (ulTotalTime < 100) is
undefined behavior, modelled as `none`. -/
def taskPercentage (totalTime cycles : Nat) : Option Nat :=
  cDiv cycles (totalTime / 100)

/-- The value `( ulTotalTime - ulIdleTime ) / ( ulTotalTime / 100 )`
appended under KERNEL_MCU_UTILIZATION; the subtraction wraps as uint32, and
division by zero (ulTotalTime < 100) is undefined behavior (`none`). -/
def mcuUtilization (totalTime idleTime : Nat) : Option Nat :=
  cDiv (sub32 totalTime idleTime) (totalTime / 100)

/-- Final value of `ulIdleTime` after the task loop of
_serializeKernelRuntimeStats: initialized to 0, overwritten with
`ulRunTimeCounter` at every task whose name passes _taskNameFilterIdle, so
the last matching task wins. -/
def ulIdleTimeOf (maxLen : Nat) (tasks : List TaskStatus) : Nat :=
  tasks.foldl
    (fun acc t =>
      if taskNameFilterIdle maxLen t.pcTaskName = TASK_NAME_EQUAL then t.ulRunTimeCounter
      else acc)
    0

/-- One entry of the "task_details" array: a keyless map opened declaring 7
children, holding the 7 per-task leaves in source order. -/
def serializeTaskEntry (totalTime : Nat) (t : TaskStatus) : Doc :=
  Doc.node "" CKind.map 7
    [Doc.leaf KERNEL_TASK_ID (Scalar.sint (some (t.xTaskNumber : Int))),
     Doc.leaf KERNEL_TASK_NAME (Scalar.text (String.mk t.pcTaskName)),
     Doc.leaf KERNEL_TASK_STATUS (Scalar.sint (some (t.eCurrentState : Int))),
     Doc.leaf KERNEL_TASK_PRIORITY (Scalar.sint (some (t.uxCurrentPriority : Int))),
     Doc.leaf KERNEL_TASK_ABS_CYCLES (Scalar.sint (some (t.ulRunTimeCounter : Int))),
     Doc.leaf KERNEL_TASK_PERCENTAGE
       (Scalar.sint ((taskPercentage totalTime t.ulRunTimeCounter).map Int.ofNat)),
     Doc.leaf KERNEL_STACK_HIGH_WATERMARK (Scalar.sint (some (t.usStackHighWaterMark : Int)))]

/-- _serializeKernelRuntimeStats: opens the "kernel_metrics" map declaring
12 children and appends, in source order, the 7 heap leaves, num_of_tasks,
device_type, the "task_details" array (declaring one child per task),
mcu_uptime = ulTotalTime and mcu_utilization. -/
def serializeKernelRuntimeStats (maxLen : Nat) (stats : Stats) : Doc :=
  let uxArraySize := stats.tasks.length
  let ulTotalTime := stats.totalRunTime
  let ulIdleTime := ulIdleTimeOf maxLen stats.tasks
  let hp := stats.heap
  Doc.node KERNEL_METIRCS CKind.map 12
    [Doc.leaf KERNEL_HEAP_FREE_SIZE (Scalar.sint (some (hp.xAvailableHeapSpaceInBytes : Int))),
     Doc.leaf KERNEL_HEAP_LARGEST_FREE (Scalar.sint (some (hp.xSizeOfLargestFreeBlockInBytes : Int))),
     Doc.leaf KERNEL_HEAP_SMALLEST_FREE (Scalar.sint (some (hp.xSizeOfSmallestFreeBlockInBytes : Int))),
     Doc.leaf KERNEL_HEAP_NUM_OF_FREE (Scalar.sint (some (hp.xNumberOfFreeBlocks : Int))),
     Doc.leaf KERNEL_HEAP_LOW_WATERMARK (Scalar.sint (some (hp.xMinimumEverFreeBytesRemaining : Int))),
     Doc.leaf KERNEL_HEAP_SUCCESSFUL_ALLOC (Scalar.sint (some (hp.xNumberOfSuccessfulAllocations : Int))),
     Doc.leaf KERNEL_HEAP_SUCCESSFUL_FREE (Scalar.sint (some (hp.xNumberOfSuccessfulFrees : Int))),
     Doc.leaf KERNEL_NUM_OF_TASKS (Scalar.sint (some (uxArraySize : Int))),
     Doc.leaf DEVICE_TYPE (Scalar.text configPLATFORM_NAME),
     Doc.node KERNEL_TASK_DETAILS CKind.array uxArraySize
       (stats.tasks.map (serializeTaskEntry ulTotalTime)),
     Doc.leaf KERNEL_MCU_UPTIME (Scalar.sint (some (ulTotalTime : Int))),
     Doc.leaf KERNEL_MCU_UTILIZATION
       (Scalar.sint ((mcuUtilization ulTotalTime ulIdleTime).map Int.ofNat))]

/-- `metricsGroupCount` of _serialize: the number of metrics groups whose
snapshot mask is nonzero. -/
def metricsGroupCount (snapshot : FlagSnapshot) : Nat :=
  snapshot.tcp.nonzero.toNat + snapshot.kernelEnabled.toNat

/-- _serialize: the whole report document of one pass — the outermost map
declaring 2 children ("header", "metrics"); "header" declares 2 children
(report_id, version "1.1"); "metrics" declares `metricsGroupCount` children
and holds one child per nonzero-masked group, in group-index order
(TCP connections first, then task runtime stats). -/
def serialize (maxLen : Nat) (reportId : Nat) (snapshot : FlagSnapshot)
    (stats : Stats) : Doc :=
  Doc.node "" CKind.map 2
    [Doc.node HEADER_TAG CKind.map 2
      [Doc.leaf REPORTID_TAG (Scalar.sint (some (reportId : Int))),
       Doc.leaf VERSION_TAG (Scalar.text VERSION_1_1)],
     Doc.node METRICS_TAG CKind.map (metricsGroupCount snapshot)
      ((if snapshot.tcp.nonzero then
          [serializeTcpConnections snapshot stats.tcpConnections]
        else []) ++
       (if snapshot.kernelEnabled then
          [serializeKernelRuntimeStats maxLen stats]
        else []))]

/-- Key of a document entry (`""` for keyless containers). -/
def Doc.key : Doc → String
  | .leaf k _ => k
  | .node k _ _ _ => k

/-- Declared child count passed to the container-open call (0 for leaves). -/
def Doc.declared : Doc → Nat
  | .leaf _ _ => 0
  | .node _ _ d _ => d

/-- Children actually appended to a container (empty for leaves). -/
def Doc.children : Doc → List Doc
  | .leaf _ _ => []
  | .node _ _ _ cs => cs

mutual

/-- Whether some entry (leaf or container) with the given key occurs
anywhere in the document. -/
def Doc.containsKey : Doc → String → Bool
  | .leaf k _, key => k == key
  | .node k _ _ cs, key => k == key || Doc.containsKeyList cs key

/-- List version of `Doc.containsKey`. -/
def Doc.containsKeyList : List Doc → String → Bool
  | [], _ => false
  | c :: cs, key => Doc.containsKey c key || Doc.containsKeyList cs key

end

mutual

/-- Value of the first leaf with the given key anywhere in the document. -/
def Doc.leafValue? : Doc → String → Option Scalar
  | .leaf k v, key => if k == key then some v else none
  | .node _ _ _ cs, key => Doc.leafValueList? cs key

/-- List version of `Doc.leafValue?`. -/
def Doc.leafValueList? : List Doc → String → Option Scalar
  | [], _ => none
  | c :: cs, key =>
    match Doc.leafValue? c key with
    | some v => some v
    | none => Doc.leafValueList? cs key

end

mutual

/-- The first container with the given key anywhere in the document. -/
def Doc.findNode? : Doc → String → Option Doc
  | .leaf _ _, _ => none
  | .node k kind d cs, key =>
    if k == key then some (Doc.node k kind d cs) else Doc.findNodeList? cs key

/-- List version of `Doc.findNode?`. -/
def Doc.findNodeList? : List Doc → String → Option Doc
  | [], _ => none
  | c :: cs, key =>
    match Doc.findNode? c key with
    | some d => some d
    | none => Doc.findNodeList? cs key

end

mutual

/-- `true` iff some container in the document was opened with a declared
child count different from the number of children actually appended to it. -/
def Doc.childMismatch : Doc → Bool
  | .leaf _ _ => false
  | .node _ _ d cs => (d != cs.length) || Doc.childMismatchList cs

/-- List version of `Doc.childMismatch`. -/
def Doc.childMismatchList : List Doc → Bool
  | [] => false
  | c :: cs => Doc.childMismatch c || Doc.childMismatchList cs

end

/-- One Structured Encoder operation issued during a serialization pass. -/
inductive EncOp where
  | openC (key : String) (kind : CKind) (declared : Nat)
  | append (key : String) (v : Scalar)
  | closeC (kind : CKind)

mutual

/-- The flat sequence of encoder operations a pass issues for a document:
container open, the operations of its children in order, container close. -/
def docOps : Doc → List EncOp
  | .leaf k v => [EncOp.append k v]
  | .node k kind d cs => EncOp.openC k kind d :: (docOpsList cs ++ [EncOp.closeC kind])

/-- List version of `docOps`. -/
def docOpsList : List Doc → List EncOp
  | [] => []
  | c :: cs => docOps c ++ docOpsList cs

end

/-- Modelled from the spec: the Structured Encoder's writing mode (real
pass, backed by a buffer) writes, for every operation, that operation's
byte encoding `enc op`; the bytes of a pass are the concatenation of the
encodings of its operations.  The encoder's wire format is an external
capability, so the per-operation encoding `enc` is kept abstract. -/
def writeBytes (enc : EncOp → List Nat) (ops : List EncOp) : List Nat :=
  (ops.map enc).flatten

/-- Modelled from the spec: the Structured Encoder's sizing mode (dry pass,
null buffer) reports, via getExtraBufferSizeNeeded, the exact byte count
the writing mode will produce for the same operations: the sum over all
operations of the length of each operation's byte encoding. -/
def sizeNeeded (enc : EncOp → List Nat) (ops : List EncOp) : Nat :=
  (ops.map fun op => (enc op).length).sum

/-- The static `_report` state: buffer pointer (`none` = NULL, otherwise
the written bytes), stored buffer size, and the `_AwsIotDefenderReportId`
counter (uint64). -/
structure ReportState where
  pDataBuffer : Option (List Nat)
  size : Nat
  reportId : Nat
deriving DecidableEq

/-- Initial static state: NULL buffer, size 0, report id 0. -/
def initialReportState : ReportState :=
  { pDataBuffer := none, size := 0, reportId := 0 }

/-- AwsIotDefenderInternal_CreateReport (entry precondition — buffer NULL
and size 0 — asserted by the caller as a theorem hypothesis): snapshots the
flags, increments the report id, runs the dry pass to obtain the needed
size, then — iff the allocator succeeds (`allocOk`) — allocates and runs
the real pass, storing buffer and size; on allocation failure returns
`false` leaving buffer and size untouched.  Statistics are held fixed
between the two passes. -/
def createReport (enc : EncOp → List Nat) (maxLen : Nat) (allocOk : Bool)
    (snapshot : FlagSnapshot) (stats : Stats) (st : ReportState) :
    Bool × ReportState :=
  let newId := (st.reportId + 1) % 2 ^ 64
  let doc := serialize maxLen newId snapshot stats
  let dataSize := sizeNeeded enc (docOps doc)
  if allocOk then
    (true,
     { pDataBuffer := some (writeBytes enc (docOps doc)),
       size := dataSize,
       reportId := newId })
  else
    (false, { st with reportId := newId })

/-- AwsIotDefenderInternal_DeleteReport: frees the buffer and resets buffer
pointer and size; the report id counter is left untouched. -/
def deleteReport (st : ReportState) : ReportState :=
  { pDataBuffer := none, size := 0, reportId := st.reportId }

/-- AwsIotDefenderInternal_GetReportBufferSize: 0 when no buffer is
allocated, otherwise the encoder's reported encoded size of the buffer
(`encSize`, the external getEncodedSize capability) — not the stored
allocation size. -/
def getReportBufferSize (encSize : List Nat → Nat) (st : ReportState) : Nat :=
  match st.pDataBuffer with
  | none => 0
  | some buf => encSize buf

/-! ## Helper lemmas -/

/-- The sizing mode's reported byte count equals the length of the bytes
the writing mode produces for the same operation sequence. -/
theorem sizeNeeded_eq_length_writeBytes (enc : EncOp → List Nat) (ops : List EncOp) :
    sizeNeeded enc ops = (writeBytes enc ops).length := by
  simp [sizeNeeded, writeBytes, List.length_flatten, List.map_map, Function.comp_def]

/-- Characterization of the _taskNameFilterIdle loop: starting at `index`
(with the loop able to run past position 4, and the scanned name a
well-formed C string content without embedded terminators), the loop
returns TASK_NAME_EQUAL exactly when the remainders of the two strings from
`index` on agree. -/
theorem taskNameFilterIdleGo_eq (s : List Char) (hn : ∀ c ∈ s, c ≠ Char.ofNat 0) :
    ∀ fuel index, index ≤ 4 → index ≤ s.length → 4 < index + fuel →
      taskNameFilterIdleGo s index fuel
        = if s.drop index = idleName.drop index then TASK_NAME_EQUAL
          else TASK_NAME_NOT_EQUAL := by
  intro fuel
  induction fuel with
  | zero => intro index h4 _ hf; omega
  | succ fuel ih =>
    intro index h4 hs hf
    have hidleLen : idleName.length = 4 := rfl
    by_cases hseq : index = s.length
    · have hsNul : cChar s index = Char.ofNat 0 := by
        rw [cChar]; exact List.getD_eq_default _ _ (le_of_eq hseq.symm)
      have hsDrop : s.drop index = [] := by
        rw [hseq, List.drop_length]
      by_cases h4eq : index = 4
      · have hiNul : cChar idleName index = Char.ofNat 0 := by
          subst h4eq; decide
        have hiDrop : idleName.drop index = [] := by
          subst h4eq; decide
        rw [taskNameFilterIdleGo, if_pos ⟨hsNul, hiNul⟩, hsDrop, hiDrop, if_pos rfl]
      · have hlt4 : index < 4 := lt_of_le_of_ne h4 h4eq
        have hiNonNul : cChar idleName index ≠ Char.ofNat 0 := by
          interval_cases index <;> decide
        have hiDrop : idleName.drop index ≠ [] := by
          interval_cases index <;> decide
        rw [taskNameFilterIdleGo, if_neg fun h => hiNonNul h.2,
          if_pos (Or.inl hsNul), if_neg (by rw [hsDrop]; exact fun h => hiDrop h.symm)]
    · have hsLt : index < s.length := lt_of_le_of_ne hs hseq
      have hsNonNul : cChar s index ≠ Char.ofNat 0 := by
        rw [cChar, List.getD_eq_getElem _ _ hsLt]
        exact hn _ (List.getElem_mem _)
      have hsDrop : s.drop index = s[index] :: s.drop (index + 1) :=
        List.drop_eq_getElem_cons hsLt
      by_cases h4eq : index = 4
      · have hiNul : cChar idleName index = Char.ofNat 0 := by
          subst h4eq; decide
        have hiDrop : idleName.drop index = [] := by
          subst h4eq; decide
        rw [taskNameFilterIdleGo, if_neg fun h => hsNonNul h.1,
          if_pos (Or.inr (Or.inl hiNul)),
          if_neg (by rw [hsDrop, hiDrop]; exact fun h => List.cons_ne_nil _ _ h)]
      · have hlt4 : index < 4 := lt_of_le_of_ne h4 h4eq
        have hiLt : index < idleName.length := by rw [hidleLen]; exact hlt4
        have hiChar : cChar idleName index = idleName[index] := by
          rw [cChar, List.getD_eq_getElem _ _ hiLt]
        have hiNonNul : cChar idleName index ≠ Char.ofNat 0 := by
          interval_cases index <;> decide
        have hsChar : cChar s index = s[index] := by
          rw [cChar, List.getD_eq_getElem _ _ hsLt]
        have hiDrop : idleName.drop index = idleName[index] :: idleName.drop (index + 1) :=
          List.drop_eq_getElem_cons hiLt
        by_cases hchars : cChar s index = cChar idleName index
        · have hhead : s[index] = idleName[index] := by
            rw [← hsChar, ← hiChar]; exact hchars
          have hrec := ih (index + 1) hlt4 hsLt (by omega)
          have hcondEquiv : (s.drop index = idleName.drop index)
              ↔ (s.drop (index + 1) = idleName.drop (index + 1)) := by
            rw [hsDrop, hiDrop, List.cons_eq_cons]
            exact ⟨fun h => h.2, fun h => ⟨hhead, h⟩⟩
          rw [taskNameFilterIdleGo, if_neg fun h => hsNonNul h.1,
            if_neg (by push_neg; exact ⟨hsNonNul, hiNonNul, hchars⟩), hrec]
          by_cases htail : s.drop (index + 1) = idleName.drop (index + 1)
          · rw [if_pos htail, if_pos (hcondEquiv.mpr htail)]
          · rw [if_neg htail, if_neg fun h => htail (hcondEquiv.mp h)]
        · have hcondNe : ¬(s.drop index = idleName.drop index) := by
            rw [hsDrop, hiDrop]
            intro hcontra
            rw [List.cons_eq_cons] at hcontra
            exact hchars (by rw [hsChar, hiChar, hcontra.1])
          rw [taskNameFilterIdleGo, if_neg fun h => hsNonNul h.1,
            if_pos (Or.inr (Or.inr hchars)), if_neg hcondNe]

/-- _taskNameFilterIdle returns TASK_NAME_EQUAL exactly on the reserved
idle name, for any well-formed task name terminating within the bound,
provided the bound exceeds the idle name's length. -/
theorem taskNameFilterIdle_eq (maxLen : Nat) (s : List Char)
    (hm : 4 < maxLen) (hn : ∀ c ∈ s, c ≠ Char.ofNat 0) :
    taskNameFilterIdle maxLen s
      = if s = idleName then TASK_NAME_EQUAL else TASK_NAME_NOT_EQUAL := by
  have h := taskNameFilterIdleGo_eq s hn maxLen 0 (by omega) (by omega) (by omega)
  simpa [taskNameFilterIdle] using h

/-- A task whose name is exactly the idle name, iterated last, leaves its
run-time counter as the captured idle time. -/
theorem ulIdleTimeOf_append_idle (maxLen : Nat) (hm : 4 < maxLen)
    (tasks : List TaskStatus) (t : TaskStatus) (ht : t.pcTaskName = idleName) :
    ulIdleTimeOf maxLen (tasks ++ [t]) = t.ulRunTimeCounter := by
  have hfil : taskNameFilterIdle maxLen t.pcTaskName = TASK_NAME_EQUAL := by
    rw [ht, taskNameFilterIdle_eq maxLen idleName hm (by decide), if_pos rfl]
  rw [ulIdleTimeOf, List.foldl_append]
  simp [hfil]

/-- If no task in the list is named exactly the idle name (all names
well-formed and within the bound), the captured idle time stays 0. -/
theorem ulIdleTimeOf_eq_zero (maxLen : Nat) (hm : 4 < maxLen) (tasks : List TaskStatus)
    (h : ∀ t ∈ tasks, (∀ c ∈ t.pcTaskName, c ≠ Char.ofNat 0) ∧ t.pcTaskName ≠ idleName) :
    ulIdleTimeOf maxLen tasks = 0 := by
  induction tasks with
  | nil => rfl
  | cons t ts ih =>
    have ht := h t (List.mem_cons_self t ts)
    have hfil : taskNameFilterIdle maxLen t.pcTaskName = TASK_NAME_NOT_EQUAL := by
      rw [taskNameFilterIdle_eq maxLen _ hm ht.1, if_neg ht.2]
    have hrest : ulIdleTimeOf maxLen ts = 0 :=
      ih fun t2 h2 => h t2 (List.mem_cons_of_mem t h2)
    rw [ulIdleTimeOf] at hrest ⊢
    simp only [List.foldl_cons, hfil]
    simpa [TASK_NAME_NOT_EQUAL, TASK_NAME_EQUAL] using hrest

/-- Appending container lists: a mismatch in the concatenation is a
mismatch in one of the parts. -/
theorem childMismatchList_append (l1 l2 : List Doc) :
    Doc.childMismatchList (l1 ++ l2)
      = (Doc.childMismatchList l1 || Doc.childMismatchList l2) := by
  induction l1 with
  | nil => simp [Doc.childMismatchList]
  | cons c cs ih => simp [Doc.childMismatchList, ih, Bool.or_assoc]

/-- A mapped list has no mismatch when no image has one. -/
theorem childMismatchList_map_false {α : Type} (f : α → Doc) (l : List α)
    (h : ∀ x ∈ l, Doc.childMismatch (f x) = false) :
    Doc.childMismatchList (l.map f) = false := by
  induction l with
  | nil => rfl
  | cons x xs ih =>
    simp only [List.map_cons, Doc.childMismatchList, Bool.or_eq_false_iff]
    exact ⟨h x (List.mem_cons_self x xs), ih fun y hy => h y (List.mem_cons_of_mem x hy)⟩

/-- A connection record declares exactly as many children as it appends. -/
theorem childMismatch_serializeConnectionRecord (b : Bool) (addr : String) :
    Doc.childMismatch (serializeConnectionRecord b addr) = false := by
  cases b <;> simp [serializeConnectionRecord, Doc.childMismatch, Doc.childMismatchList]

/-- A task-details entry declares exactly as many children as it appends. -/
theorem childMismatch_serializeTaskEntry (totalTime : Nat) (t : TaskStatus) :
    Doc.childMismatch (serializeTaskEntry totalTime t) = false := by
  simp [serializeTaskEntry, Doc.childMismatch, Doc.childMismatchList]

/-- Every container of the kernel-runtime-stats group declares exactly as
many children as it appends. -/
theorem childMismatch_serializeKernelRuntimeStats (maxLen : Nat) (stats : Stats) :
    Doc.childMismatch (serializeKernelRuntimeStats maxLen stats) = false := by
  simp [serializeKernelRuntimeStats, Doc.childMismatch, Doc.childMismatchList,
    childMismatchList_map_false (serializeTaskEntry stats.totalRunTime) stats.tasks
      (fun t _ => childMismatch_serializeTaskEntry stats.totalRunTime t)]

/-- With the EstablishedEnabled sub-flag set, every container of the
TCP-connections group declares exactly as many children as it appends. -/
theorem childMismatch_serializeTcpConnections (snapshot : FlagSnapshot)
    (conns : List String) (hEst : snapshot.tcp.established = true) :
    Doc.childMismatch (serializeTcpConnections snapshot conns) = false := by
  have hrec := childMismatchList_map_false
    (serializeConnectionRecord snapshot.tcp.remoteAddr) conns
    (fun a _ => childMismatch_serializeConnectionRecord snapshot.tcp.remoteAddr a)
  rcases hconn : snapshot.tcp.connections <;> rcases htot : snapshot.tcp.total <;>
    rcases hc : conns <;>
    simp_all [serializeTcpConnections, Doc.childMismatch, Doc.childMismatchList,
      childMismatchList_append]

/-- Unfolding lemma: mismatch of a container node. -/
theorem childMismatch_node (k : String) (kind : CKind) (d : Nat) (cs : List Doc) :
    Doc.childMismatch (Doc.node k kind d cs)
      = ((d != cs.length) || Doc.childMismatchList cs) := by
  simp [Doc.childMismatch]

/-- Unfolding lemma: mismatch of a leaf. -/
theorem childMismatch_leaf (k : String) (v : Scalar) :
    Doc.childMismatch (Doc.leaf k v) = false := by
  simp [Doc.childMismatch]

/-- Whole-report mismatch freedom, provided the TCP group — when enabled at
all — has its EstablishedEnabled sub-flag set. -/
theorem childMismatch_serialize (maxLen reportId : Nat) (snapshot : FlagSnapshot)
    (stats : Stats) (h : snapshot.tcp.established = true ∨ snapshot.tcp.nonzero = false) :
    Doc.childMismatch (serialize maxLen reportId snapshot stats) = false := by
  have hk := childMismatch_serializeKernelRuntimeStats maxLen stats
  rcases hnz : snapshot.tcp.nonzero <;> rcases hker : snapshot.kernelEnabled
  · simp [serialize, childMismatch_node, childMismatch_leaf, Doc.childMismatchList,
      metricsGroupCount, hnz, hker]
  · simp [serialize, childMismatch_node, childMismatch_leaf, Doc.childMismatchList,
      metricsGroupCount, hnz, hker, hk]
  · have hEst : snapshot.tcp.established = true := by
      rcases h with h1 | h1
      · exact h1
      · rw [hnz] at h1; exact absurd h1 (by simp)
    have htcp := childMismatch_serializeTcpConnections snapshot stats.tcpConnections hEst
    simp [serialize, childMismatch_node, childMismatch_leaf, Doc.childMismatchList,
      metricsGroupCount, hnz, hker, htcp]
  · have hEst : snapshot.tcp.established = true := by
      rcases h with h1 | h1
      · exact h1
      · rw [hnz] at h1; exact absurd h1 (by simp)
    have htcp := childMismatch_serializeTcpConnections snapshot stats.tcpConnections hEst
    simp [serialize, childMismatch_node, childMismatch_leaf, Doc.childMismatchList,
      metricsGroupCount, hnz, hker, htcp, hk]

/-- Unfolding lemma: key search at a leaf. -/
theorem containsKey_leaf (k : String) (v : Scalar) (key : String) :
    Doc.containsKey (Doc.leaf k v) key = (k == key) := by
  simp [Doc.containsKey]

/-- Unfolding lemma: key search at a container. -/
theorem containsKey_node (k : String) (kind : CKind) (d : Nat) (cs : List Doc)
    (key : String) :
    Doc.containsKey (Doc.node k kind d cs) key
      = ((k == key) || Doc.containsKeyList cs key) := by
  simp [Doc.containsKey]

/-- Unfolding lemma: key search in the empty child list. -/
theorem containsKeyList_nil (key : String) : Doc.containsKeyList [] key = false := rfl

/-- Unfolding lemma: key search in a child-list cell. -/
theorem containsKeyList_cons (c : Doc) (cs : List Doc) (key : String) :
    Doc.containsKeyList (c :: cs) key
      = (Doc.containsKey c key || Doc.containsKeyList cs key) := by
  simp [Doc.containsKeyList]

/-- Key search distributes over child-list concatenation. -/
theorem containsKeyList_append (l1 l2 : List Doc) (key : String) :
    Doc.containsKeyList (l1 ++ l2) key
      = (Doc.containsKeyList l1 key || Doc.containsKeyList l2 key) := by
  induction l1 with
  | nil => simp [containsKeyList_nil]
  | cons c cs ih => simp [containsKeyList_cons, ih, Bool.or_assoc]

/-- Unfolding lemma: leaf-value search at a leaf. -/
theorem leafValue_leaf (k : String) (v : Scalar) (key : String) :
    Doc.leafValue? (Doc.leaf k v) key = if k == key then some v else none := by
  simp [Doc.leafValue?]

/-- Unfolding lemma: leaf-value search at a container. -/
theorem leafValue_node (k : String) (kind : CKind) (d : Nat) (cs : List Doc)
    (key : String) :
    Doc.leafValue? (Doc.node k kind d cs) key = Doc.leafValueList? cs key := by
  simp [Doc.leafValue?]

/-- Unfolding lemma: leaf-value search in the empty child list. -/
theorem leafValueList_nil (key : String) : Doc.leafValueList? [] key = none := rfl

/-- Unfolding lemma: leaf-value search in a child-list cell. -/
theorem leafValueList_cons (c : Doc) (cs : List Doc) (key : String) :
    Doc.leafValueList? (c :: cs) key
      = (Doc.leafValue? c key).or (Doc.leafValueList? cs key) := by
  cases h : Doc.leafValue? c key <;> simp [Doc.leafValueList?, h, Option.or]

/-- Unfolding lemma: container search at a leaf. -/
theorem findNode_leaf (k : String) (v : Scalar) (key : String) :
    Doc.findNode? (Doc.leaf k v) key = none := rfl

/-- Unfolding lemma: container search at a container. -/
theorem findNode_node (k : String) (kind : CKind) (d : Nat) (cs : List Doc)
    (key : String) :
    Doc.findNode? (Doc.node k kind d cs) key
      = if k == key then some (Doc.node k kind d cs)
        else Doc.findNodeList? cs key := by
  simp [Doc.findNode?]

/-- Unfolding lemma: container search in the empty child list. -/
theorem findNodeList_nil (key : String) : Doc.findNodeList? [] key = none := rfl

/-- Unfolding lemma: container search in a child-list cell. -/
theorem findNodeList_cons (c : Doc) (cs : List Doc) (key : String) :
    Doc.findNodeList? (c :: cs) key
      = (Doc.findNode? c key).or (Doc.findNodeList? cs key) := by
  cases h : Doc.findNode? c key <;> simp [Doc.findNodeList?, h, Option.or]

/-- Key search in a connection record: only the (keyless) record itself and,
when RemoteAddrEnabled, "remote_addr" occur, independent of the address. -/
theorem containsKey_serializeConnectionRecord (b : Bool) (addr key : String) :
    Doc.containsKey (serializeConnectionRecord b addr) key
      = (("" : String) == key || (b && (REMOTE_ADDR_TAG == key))) := by
  cases b <;> simp [serializeConnectionRecord, Doc.containsKey, Doc.containsKeyList]

/-- Key search across the mapped records of the "connections" array. -/
theorem containsKeyList_map_record (b : Bool) (key : String) (conns : List String) :
    Doc.containsKeyList (conns.map (serializeConnectionRecord b)) key
      = (!conns.isEmpty && (("" : String) == key || (b && (REMOTE_ADDR_TAG == key)))) := by
  induction conns with
  | nil => simp [Doc.containsKeyList]
  | cons a l ih =>
    rw [List.map_cons, Doc.containsKeyList, containsKey_serializeConnectionRecord, ih]
    rcases hx : (("" : String) == key || (b && (REMOTE_ADDR_TAG == key))) <;>
      simp [hx]

/-- A leaf-value search over a mapped list misses when it misses every image. -/
theorem leafValueList_map_none {α : Type} (f : α → Doc) (l : List α) (key : String)
    (h : ∀ x ∈ l, Doc.leafValue? (f x) key = none) :
    Doc.leafValueList? (l.map f) key = none := by
  induction l with
  | nil => rfl
  | cons x xs ih =>
    rw [List.map_cons, Doc.leafValueList?, h x (List.mem_cons_self x xs)]
    exact ih fun y hy => h y (List.mem_cons_of_mem x hy)

/-- A task-details entry holds no "mcu_uptime" leaf. -/
theorem leafValue_taskEntry_uptime_none (totalTime : Nat) (t : TaskStatus) :
    Doc.leafValue? (serializeTaskEntry totalTime t) KERNEL_MCU_UPTIME = none := by
  simp [serializeTaskEntry, Doc.leafValue?, Doc.leafValueList?, KERNEL_MCU_UPTIME,
    KERNEL_TASK_ID, KERNEL_TASK_NAME, KERNEL_TASK_STATUS, KERNEL_TASK_PRIORITY,
    KERNEL_TASK_ABS_CYCLES, KERNEL_TASK_PERCENTAGE, KERNEL_STACK_HIGH_WATERMARK]

/-- A task-details entry holds no "mcu_utilization" leaf. -/
theorem leafValue_taskEntry_util_none (totalTime : Nat) (t : TaskStatus) :
    Doc.leafValue? (serializeTaskEntry totalTime t) KERNEL_MCU_UTILIZATION = none := by
  simp [serializeTaskEntry, Doc.leafValue?, Doc.leafValueList?, KERNEL_MCU_UTILIZATION,
    KERNEL_TASK_ID, KERNEL_TASK_NAME, KERNEL_TASK_STATUS, KERNEL_TASK_PRIORITY,
    KERNEL_TASK_ABS_CYCLES, KERNEL_TASK_PERCENTAGE, KERNEL_STACK_HIGH_WATERMARK]

/-- Container search across the mapped records of the "connections" array:
records are keyless, so no keyed container is found in them. -/
theorem findNodeList_map_record (b : Bool) (key : String) (hk : (("" : String) == key) = false)
    (conns : List String) :
    Doc.findNodeList? (conns.map (serializeConnectionRecord b)) key = none := by
  induction conns with
  | nil => rfl
  | cons a l ih =>
    cases b <;>
      simp [List.map_cons, findNodeList_cons, serializeConnectionRecord, findNode_node, hk,
        findNodeList_nil, findNodeList_cons, findNode_leaf, ih, Option.or]

/-! ## Claims -/

/-- C1: the claim states that a total run-time of 0 yields defined
`mcu_utilization` and `task_percentage` values, never a division by zero.
The code divides by `ulTotalTime / 100` with no guard, so at total run-time
0 (indeed any value below 100) both encoded values are the result of a
division by zero — undefined behavior, modelled as `none`: the guard the
spec requires is absent from the code. -/
theorem claim_C1_zero_total_undefined :
    (serializeKernelRuntimeStats 16
        ⟨[], [⟨1, ['T', 's', 'k'], 0, 1, 7, 0⟩], 0, ⟨0, 0, 0, 0, 0, 0, 0⟩⟩).leafValue?
        KERNEL_TASK_PERCENTAGE = some (Scalar.sint none)
    ∧ (serializeKernelRuntimeStats 16
        ⟨[], [⟨1, ['T', 's', 'k'], 0, 1, 7, 0⟩], 0, ⟨0, 0, 0, 0, 0, 0, 0⟩⟩).leafValue?
        KERNEL_MCU_UTILIZATION = some (Scalar.sint none)
    ∧ taskPercentage 0 7 = none
    ∧ mcuUtilization 0 0 = none := by
  refine ⟨?_, ?_, rfl, rfl⟩ <;> decide

/-- C2: for any per-operation encoding, any flag snapshot and any fixed
statistics, the byte count the sizing (dry) pass reports for the report
document equals the number of bytes the writing (real) pass produces for
the same document — both passes drive the identical `serialize` routine —
and consequently a successful CreateReport stores a buffer whose length is
exactly the stored size, never writing past it. -/
theorem claim_C2_exact_sizing (enc : EncOp → List Nat) (maxLen reportId : Nat)
    (snapshot : FlagSnapshot) (stats : Stats) :
    sizeNeeded enc (docOps (serialize maxLen reportId snapshot stats))
        = (writeBytes enc (docOps (serialize maxLen reportId snapshot stats))).length
    ∧ ∀ st : ReportState,
        ((createReport enc maxLen true snapshot stats st).2.pDataBuffer.map List.length)
          = some (createReport enc maxLen true snapshot stats st).2.size := by
  refine ⟨sizeNeeded_eq_length_writeBytes enc _, fun st => ?_⟩
  simp [createReport, sizeNeeded_eq_length_writeBytes]

/-- C6 (counterexample): the claim states the report id increases by
exactly 1 across consecutive successful builds for every interleaving
permitted by the precondition.  In the trace success, delete, failed
attempt (allocation failure), success — every call passing the entry
precondition — the two successful builds carry ids 1 and 3. -/
theorem claim_C6_counterexample :
    (createReport (fun _ => []) 16 true ⟨⟨false, false, false, false⟩, false⟩
        ⟨[], [], 0, ⟨0, 0, 0, 0, 0, 0, 0⟩⟩ initialReportState).1 = true
    ∧ (createReport (fun _ => []) 16 true ⟨⟨false, false, false, false⟩, false⟩
        ⟨[], [], 0, ⟨0, 0, 0, 0, 0, 0, 0⟩⟩ initialReportState).2.reportId = 1
    ∧ (createReport (fun _ => []) 16 false ⟨⟨false, false, false, false⟩, false⟩
        ⟨[], [], 0, ⟨0, 0, 0, 0, 0, 0, 0⟩⟩
        (deleteReport
          (createReport (fun _ => []) 16 true ⟨⟨false, false, false, false⟩, false⟩
            ⟨[], [], 0, ⟨0, 0, 0, 0, 0, 0, 0⟩⟩ initialReportState).2)).1 = false
    ∧ (createReport (fun _ => []) 16 true ⟨⟨false, false, false, false⟩, false⟩
        ⟨[], [], 0, ⟨0, 0, 0, 0, 0, 0, 0⟩⟩
        (createReport (fun _ => []) 16 false ⟨⟨false, false, false, false⟩, false⟩
          ⟨[], [], 0, ⟨0, 0, 0, 0, 0, 0, 0⟩⟩
          (deleteReport
            (createReport (fun _ => []) 16 true ⟨⟨false, false, false, false⟩, false⟩
              ⟨[], [], 0, ⟨0, 0, 0, 0, 0, 0, 0⟩⟩ initialReportState).2)).2).1 = true
    ∧ (createReport (fun _ => []) 16 true ⟨⟨false, false, false, false⟩, false⟩
        ⟨[], [], 0, ⟨0, 0, 0, 0, 0, 0, 0⟩⟩
        (createReport (fun _ => []) 16 false ⟨⟨false, false, false, false⟩, false⟩
          ⟨[], [], 0, ⟨0, 0, 0, 0, 0, 0, 0⟩⟩
          (deleteReport
            (createReport (fun _ => []) 16 true ⟨⟨false, false, false, false⟩, false⟩
              ⟨[], [], 0, ⟨0, 0, 0, 0, 0, 0, 0⟩⟩ initialReportState).2)).2).2.reportId = 3 := by
  refine ⟨?_, ?_, ?_, ?_, ?_⟩ <;> rfl

/-- C6 (amended): across two consecutive successful builds with no other
CreateReport attempt in between (only the DeleteReport releasing the first
buffer), the report id increases by exactly 1 (modulo 2^64), and
DeleteReport never resets the id counter.  (A failed CreateReport attempt
in between also consumes an id, so the original unconditional claim fails;
see the counterexample.) -/
theorem claim_C6_consecutive_id (enc : EncOp → List Nat) (maxLen : Nat)
    (snapshot : FlagSnapshot) (stats : Stats) (st : ReportState)
    (hbuf : st.pDataBuffer = none) (hsize : st.size = 0) :
    (createReport enc maxLen true snapshot stats st).1 = true
    ∧ (deleteReport (createReport enc maxLen true snapshot stats st).2).reportId
        = (createReport enc maxLen true snapshot stats st).2.reportId
    ∧ (createReport enc maxLen true snapshot stats
          (deleteReport (createReport enc maxLen true snapshot stats st).2)).1 = true
    ∧ (createReport enc maxLen true snapshot stats
          (deleteReport (createReport enc maxLen true snapshot stats st).2)).2.reportId
        = ((createReport enc maxLen true snapshot stats st).2.reportId + 1) % 2 ^ 64 := by
  refine ⟨rfl, rfl, rfl, ?_⟩
  simp [createReport, deleteReport]

/-- C6 witness: the amended statement at a concrete legal state. -/
theorem claim_C6_consecutive_id_witness :
    (initialReportState.pDataBuffer = none ∧ initialReportState.size = 0)
    ∧ (createReport (fun _ => [0]) 16 true ⟨⟨true, true, true, true⟩, true⟩
        ⟨["1.2.3.4:80"], [⟨1, ['I', 'D', 'L', 'E'], 0, 0, 120, 10⟩], 120,
          ⟨1, 2, 3, 4, 5, 6, 7⟩⟩
        (deleteReport
          (createReport (fun _ => [0]) 16 true ⟨⟨true, true, true, true⟩, true⟩
            ⟨["1.2.3.4:80"], [⟨1, ['I', 'D', 'L', 'E'], 0, 0, 120, 10⟩], 120,
              ⟨1, 2, 3, 4, 5, 6, 7⟩⟩ initialReportState).2)).2.reportId
      = ((createReport (fun _ => [0]) 16 true ⟨⟨true, true, true, true⟩, true⟩
          ⟨["1.2.3.4:80"], [⟨1, ['I', 'D', 'L', 'E'], 0, 0, 120, 10⟩], 120,
            ⟨1, 2, 3, 4, 5, 6, 7⟩⟩ initialReportState).2.reportId + 1) % 2 ^ 64 := by
  exact ⟨⟨rfl, rfl⟩,
    (claim_C6_consecutive_id (fun _ => [0]) 16 ⟨⟨true, true, true, true⟩, true⟩
      ⟨["1.2.3.4:80"], [⟨1, ['I', 'D', 'L', 'E'], 0, 0, 120, 10⟩], 120,
        ⟨1, 2, 3, 4, 5, 6, 7⟩⟩ initialReportState rfl rfl).2.2.2⟩

/-- C8: when the report-buffer allocation fails, CreateReport returns
`false` and the Report state keeps a null buffer pointer and stored size 0
— no partial state is left behind. -/
theorem claim_C8_alloc_failure_clean (enc : EncOp → List Nat) (maxLen : Nat)
    (snapshot : FlagSnapshot) (stats : Stats) (st : ReportState)
    (hbuf : st.pDataBuffer = none) (hsize : st.size = 0) :
    (createReport enc maxLen false snapshot stats st).1 = false
    ∧ (createReport enc maxLen false snapshot stats st).2.pDataBuffer = none
    ∧ (createReport enc maxLen false snapshot stats st).2.size = 0 := by
  refine ⟨rfl, ?_, ?_⟩ <;> simp [createReport, hbuf, hsize]

/-- C8 witness: allocation failure at a concrete legal state. -/
theorem claim_C8_alloc_failure_clean_witness :
    (initialReportState.pDataBuffer = none ∧ initialReportState.size = 0)
    ∧ (createReport (fun _ => [0]) 16 false ⟨⟨true, true, true, true⟩, true⟩
        ⟨["a"], [], 200, ⟨0, 0, 0, 0, 0, 0, 0⟩⟩ initialReportState).1 = false
    ∧ (createReport (fun _ => [0]) 16 false ⟨⟨true, true, true, true⟩, true⟩
        ⟨["a"], [], 200, ⟨0, 0, 0, 0, 0, 0, 0⟩⟩ initialReportState).2.pDataBuffer = none
    ∧ (createReport (fun _ => [0]) 16 false ⟨⟨true, true, true, true⟩, true⟩
        ⟨["a"], [], 200, ⟨0, 0, 0, 0, 0, 0, 0⟩⟩ initialReportState).2.size = 0 := by
  have h := claim_C8_alloc_failure_clean (fun _ => [0]) 16 ⟨⟨true, true, true, true⟩, true⟩
    ⟨["a"], [], 200, ⟨0, 0, 0, 0, 0, 0, 0⟩⟩ initialReportState rfl rfl
  exact ⟨⟨rfl, rfl⟩, h.1, h.2.1, h.2.2⟩

/-- C9: every CreateReport call passing its entry precondition increments
the report id counter by exactly 1 (modulo 2^64), whether the build then
succeeds or fails at allocation — a failed build consumes an id. -/
theorem claim_C9_id_consumed (enc : EncOp → List Nat) (maxLen : Nat) (allocOk : Bool)
    (snapshot : FlagSnapshot) (stats : Stats) (st : ReportState)
    (hbuf : st.pDataBuffer = none) (hsize : st.size = 0) :
    (createReport enc maxLen allocOk snapshot stats st).2.reportId
      = (st.reportId + 1) % 2 ^ 64 := by
  cases allocOk <;> simp [createReport]

/-- C9 witness: a failing call at a concrete legal state still increments
the id. -/
theorem claim_C9_id_consumed_witness :
    (initialReportState.pDataBuffer = none ∧ initialReportState.size = 0)
    ∧ (createReport (fun _ => [0]) 16 false ⟨⟨true, false, true, false⟩, true⟩
        ⟨[], [], 0, ⟨0, 0, 0, 0, 0, 0, 0⟩⟩ initialReportState).2.reportId
      = (initialReportState.reportId + 1) % 2 ^ 64 := by
  exact ⟨⟨rfl, rfl⟩,
    claim_C9_id_consumed (fun _ => [0]) 16 false ⟨⟨true, false, true, false⟩, true⟩
      ⟨[], [], 0, ⟨0, 0, 0, 0, 0, 0, 0⟩⟩ initialReportState rfl rfl⟩

/-- C10: GetReportBufferSize returns 0 when no buffer is allocated, and
otherwise returns the encoder's reported encoded size of the buffer —
whatever value is stored in the Report's size field, so callers receive the
encoded length, not the allocation length. -/
theorem claim_C10_encoded_size (encSize : List Nat → Nat) (st : ReportState)
    (buf : List Nat) (m : Nat) (h : st.pDataBuffer = some buf) :
    getReportBufferSize encSize { st with size := m } = encSize buf
    ∧ getReportBufferSize encSize { st with pDataBuffer := none } = 0 := by
  constructor
  · simp [getReportBufferSize, h]
  · simp [getReportBufferSize]

/-- C10 witness: a state whose stored size (5) exceeds the encoded size
(2) — the caller receives the encoded size 2, and 0 once the buffer is
released. -/
theorem claim_C10_encoded_size_witness :
    ((⟨some [9, 9], 5, 4⟩ : ReportState).pDataBuffer = some [9, 9])
    ∧ getReportBufferSize List.length
        { (⟨some [9, 9], 5, 4⟩ : ReportState) with size := 5 } = 2
    ∧ getReportBufferSize List.length
        { (⟨some [9, 9], 5, 4⟩ : ReportState) with pDataBuffer := none } = 0 := by
  have h := claim_C10_encoded_size List.length ⟨some [9, 9], 5, 4⟩ [9, 9] 5 rfl
  exact ⟨rfl, h.1, h.2⟩

/-- C3 (counterexample): the claim states every container is opened with a
child count equal to the entries appended, for all sub-flag combinations.
With the TCP group's mask nonzero (TotalEnabled set) but EstablishedEnabled
unset, the "tcp_connections" container is opened declaring 1 child and
receives none. -/
theorem claim_C3_counterexample :
    (⟨⟨false, false, true, false⟩, false⟩ : FlagSnapshot).tcp.nonzero = true
    ∧ Doc.childMismatch
        (serialize 16 1 ⟨⟨false, false, true, false⟩, false⟩
          ⟨[], [], 0, ⟨0, 0, 0, 0, 0, 0, 0⟩⟩) = true := by
  exact ⟨rfl, by decide⟩

/-- C3 (amended): whenever the EstablishedEnabled sub-flag is set — or the
TCP group is not reported at all — every container opened by the schema
encoders declares exactly the number of entries appended to it; the
"tcp_connections" container is always opened declaring exactly one child,
and that child, "established_connections", is appended iff
EstablishedEnabled.  (When the TCP group mask is nonzero with
EstablishedEnabled unset, "tcp_connections" declares 1 child and receives
0 — the sole exception forced by the counterexample.) -/
theorem claim_C3_child_counts (maxLen reportId : Nat) (snapshot : FlagSnapshot)
    (stats : Stats)
    (h : snapshot.tcp.established = true ∨ snapshot.tcp.nonzero = false) :
    Doc.childMismatch (serialize maxLen reportId snapshot stats) = false
    ∧ (serializeTcpConnections snapshot stats.tcpConnections).declared = 1
    ∧ ((serializeTcpConnections snapshot stats.tcpConnections).children.map Doc.key
        = if snapshot.tcp.established = true then [EST_CONN_TAG] else []) := by
  refine ⟨childMismatch_serialize maxLen reportId snapshot stats h, rfl, ?_⟩
  rcases hEst : snapshot.tcp.established <;>
    simp [serializeTcpConnections, Doc.children, Doc.key, hEst]

/-- C3 witness: the amended statement at a concrete snapshot with
EstablishedEnabled set. -/
theorem claim_C3_child_counts_witness :
    ((⟨⟨true, true, true, true⟩, true⟩ : FlagSnapshot).tcp.established = true
      ∨ (⟨⟨true, true, true, true⟩, true⟩ : FlagSnapshot).tcp.nonzero = false)
    ∧ Doc.childMismatch
        (serialize 16 1 ⟨⟨true, true, true, true⟩, true⟩
          ⟨["1.2.3.4:80"], [⟨1, ['A'], 0, 0, 7, 0⟩], 200, ⟨0, 0, 0, 0, 0, 0, 0⟩⟩) = false
    ∧ (serializeTcpConnections ⟨⟨true, true, true, true⟩, true⟩
        ["1.2.3.4:80"]).declared = 1
    ∧ ((serializeTcpConnections ⟨⟨true, true, true, true⟩, true⟩
        ["1.2.3.4:80"]).children.map Doc.key = [EST_CONN_TAG]) := by
  have h := claim_C3_child_counts 16 1 ⟨⟨true, true, true, true⟩, true⟩
    ⟨["1.2.3.4:80"], [⟨1, ['A'], 0, 0, 7, 0⟩], 200, ⟨0, 0, 0, 0, 0, 0, 0⟩⟩ (Or.inl rfl)
  exact ⟨Or.inl rfl, h.1, h.2.1, h.2.2.trans (by decide)⟩

/-- C4 (counterexample): the claim states the "connections" array is
emitted iff ConnectionsEnabled and total > 0.  With ConnectionsEnabled set
and one live connection but EstablishedEnabled unset, nothing is emitted:
the array (like every optional TCP field) lives inside the
"established_connections" container, which requires EstablishedEnabled. -/
theorem claim_C4_counterexample :
    (⟨⟨false, true, false, true⟩, false⟩ : FlagSnapshot).tcp.connections = true
    ∧ (0 : Nat) < (["1.2.3.4:80"] : List String).length
    ∧ (serializeTcpConnections ⟨⟨false, true, false, true⟩, false⟩
        ["1.2.3.4:80"]).containsKey CONN_TAG = false := by
  exact ⟨rfl, by norm_num, by decide⟩

/-- C4 (amended): with the EstablishedEnabled sub-flag set, the
"connections" array appears iff ConnectionsEnabled and the connection list
is nonempty (an empty array is never emitted); "total" appears iff
TotalEnabled; "remote_addr" appears iff the array is emitted and
RemoteAddrEnabled, each record otherwise being an empty map declaring 0
children; and "established_connections" is opened declaring exactly
hasConnections + hasTotal children.  (Without EstablishedEnabled none of
these fields is emitted — the qualification forced by the counterexample.) -/
theorem claim_C4_gating (snapshot : FlagSnapshot) (conns : List String)
    (hEst : snapshot.tcp.established = true) :
    ((serializeTcpConnections snapshot conns).containsKey CONN_TAG
        = (snapshot.tcp.connections && decide (0 < conns.length)))
    ∧ ((serializeTcpConnections snapshot conns).containsKey TOTAL_TAG
        = snapshot.tcp.total)
    ∧ ((serializeTcpConnections snapshot conns).containsKey REMOTE_ADDR_TAG
        = (snapshot.tcp.connections && decide (0 < conns.length)
            && snapshot.tcp.remoteAddr))
    ∧ (((serializeTcpConnections snapshot conns).findNode? EST_CONN_TAG).map Doc.declared
        = some ((snapshot.tcp.connections && decide (0 < conns.length)).toNat
            + snapshot.tcp.total.toNat))
    ∧ (∀ addr : String,
        (serializeConnectionRecord snapshot.tcp.remoteAddr addr).declared
            = snapshot.tcp.remoteAddr.toNat
        ∧ ((serializeConnectionRecord snapshot.tcp.remoteAddr addr).children.map Doc.key
            = if snapshot.tcp.remoteAddr = true then [REMOTE_ADDR_TAG] else []))
    ∧ (snapshot.tcp.connections = true → 0 < conns.length →
        (serializeTcpConnections snapshot conns).findNode? CONN_TAG
          = some (Doc.node CONN_TAG CKind.array conns.length
              (conns.map (serializeConnectionRecord snapshot.tcp.remoteAddr)))) := by
  have hlen : (!conns.isEmpty) = decide (0 < conns.length) := by
    cases conns <;> simp
  rcases hconn : snapshot.tcp.connections <;> rcases htot : snapshot.tcp.total <;>
    rcases hrem : snapshot.tcp.remoteAddr <;> rcases hc : conns with _ | ⟨a, l⟩ <;>
    simp [serializeTcpConnections, hEst, hconn, htot, hrem, serializeConnectionRecord,
      containsKey_node, containsKey_leaf, containsKeyList_nil, containsKeyList_cons,
      containsKeyList_append, containsKeyList_map_record,
      containsKey_serializeConnectionRecord, findNode_node, findNode_leaf,
      findNodeList_nil, findNodeList_cons, findNodeList_map_record, Option.or,
      Doc.children, Doc.key, Doc.declared, hlen,
      TCP_CONN_TAG, EST_CONN_TAG, CONN_TAG, TOTAL_TAG, REMOTE_ADDR_TAG]

/-- C4 witness: the amended statement at a concrete snapshot (all sub-flags
set, one connection). -/
theorem claim_C4_gating_witness :
    ((⟨⟨true, true, true, true⟩, false⟩ : FlagSnapshot).tcp.established = true)
    ∧ (serializeTcpConnections ⟨⟨true, true, true, true⟩, false⟩
        ["1.2.3.4:80"]).containsKey CONN_TAG = true
    ∧ (serializeTcpConnections ⟨⟨true, true, true, true⟩, false⟩
        ["1.2.3.4:80"]).containsKey TOTAL_TAG = true
    ∧ (serializeTcpConnections ⟨⟨true, true, true, true⟩, false⟩
        ["1.2.3.4:80"]).containsKey REMOTE_ADDR_TAG = true
    ∧ (((serializeTcpConnections ⟨⟨true, true, true, true⟩, false⟩
        ["1.2.3.4:80"]).findNode? EST_CONN_TAG).map Doc.declared = some 2) := by
  have h := claim_C4_gating ⟨⟨true, true, true, true⟩, false⟩ ["1.2.3.4:80"] rfl
  exact ⟨rfl, h.1.trans (by decide), h.2.1.trans (by decide),
    h.2.2.1.trans (by decide), h.2.2.2.1.trans (by decide)⟩

/-- C5 (counterexample): the claim states task_percentage equals
cycles * 100 / totalTime and mcu_utilization equals
(totalTime - idleTime) * 100 / totalTime.  At totalTime = 150 with one
task of 1 cycle, the code encodes task_percentage 1 (the claimed formula
gives 0) and mcu_utilization 150 (the claimed formula gives 100): the code
divides by the truncated percent base totalTime / 100 instead. -/
theorem claim_C5_counterexample :
    (serializeTaskEntry 150 ⟨1, ['A'], 0, 0, 1, 0⟩).leafValue? KERNEL_TASK_PERCENTAGE
        = some (Scalar.sint (some 1))
    ∧ (1 * 100 / 150 : Nat) = 0
    ∧ (serializeKernelRuntimeStats 16
        ⟨[], [⟨1, ['A'], 0, 0, 1, 0⟩], 150, ⟨0, 0, 0, 0, 0, 0, 0⟩⟩).leafValue?
        KERNEL_MCU_UTILIZATION = some (Scalar.sint (some 150))
    ∧ ((150 - 0) * 100 / 150 : Nat) = 100 := by
  refine ⟨?_, rfl, ?_, rfl⟩ <;> decide

/-- C5 (amended): for totalTime ≥ 100 (so the percent base
totalTime / 100 is nonzero), the encoded mcu_uptime equals totalTime, the
encoded mcu_utilization equals (totalTime - idleTime) / (totalTime / 100)
(uint32 subtraction), and every task's encoded task_percentage equals
cycles / (totalTime / 100) — integer division by the truncated percent
base, not cycles * 100 / totalTime; for 0 < totalTime < 100 the divisor is
zero and the computation is undefined. -/
theorem claim_C5_encoded_formulas (maxLen : Nat) (stats : Stats)
    (h : 100 ≤ stats.totalRunTime) :
    (serializeKernelRuntimeStats maxLen stats).leafValue? KERNEL_MCU_UPTIME
        = some (Scalar.sint (some (stats.totalRunTime : Int)))
    ∧ (serializeKernelRuntimeStats maxLen stats).leafValue? KERNEL_MCU_UTILIZATION
        = some (Scalar.sint (some (Int.ofNat
            (sub32 stats.totalRunTime (ulIdleTimeOf maxLen stats.tasks)
              / (stats.totalRunTime / 100)))))
    ∧ ∀ t ∈ stats.tasks,
        (serializeTaskEntry stats.totalRunTime t).leafValue? KERNEL_TASK_PERCENTAGE
          = some (Scalar.sint (some (Int.ofNat
              (t.ulRunTimeCounter / (stats.totalRunTime / 100))))) := by
  have hdiv : stats.totalRunTime / 100 ≠ 0 := by
    have h1 : 1 ≤ stats.totalRunTime / 100 := (Nat.one_le_div_iff (by norm_num)).mpr h
    omega
  have hmapUp := leafValueList_map_none (serializeTaskEntry stats.totalRunTime)
    stats.tasks KERNEL_MCU_UPTIME
    (fun t _ => leafValue_taskEntry_uptime_none stats.totalRunTime t)
  have hmapUtil := leafValueList_map_none (serializeTaskEntry stats.totalRunTime)
    stats.tasks KERNEL_MCU_UTILIZATION
    (fun t _ => leafValue_taskEntry_util_none stats.totalRunTime t)
  simp only [KERNEL_MCU_UPTIME] at hmapUp
  simp only [KERNEL_MCU_UTILIZATION] at hmapUtil
  refine ⟨?_, ?_, fun t _ => ?_⟩
  · simp [serializeKernelRuntimeStats, leafValue_node, leafValue_leaf, leafValueList_nil,
      leafValueList_cons, hmapUp, Option.or, KERNEL_MCU_UPTIME, KERNEL_HEAP_FREE_SIZE,
      KERNEL_HEAP_LARGEST_FREE, KERNEL_HEAP_SMALLEST_FREE, KERNEL_HEAP_NUM_OF_FREE,
      KERNEL_HEAP_LOW_WATERMARK, KERNEL_HEAP_SUCCESSFUL_ALLOC, KERNEL_HEAP_SUCCESSFUL_FREE,
      KERNEL_NUM_OF_TASKS, DEVICE_TYPE, KERNEL_TASK_DETAILS, KERNEL_MCU_UTILIZATION]
  · simp [serializeKernelRuntimeStats, leafValue_node, leafValue_leaf, leafValueList_nil,
      leafValueList_cons, hmapUtil, Option.or, mcuUtilization, cDiv, hdiv,
      KERNEL_MCU_UPTIME, KERNEL_HEAP_FREE_SIZE, KERNEL_HEAP_LARGEST_FREE,
      KERNEL_HEAP_SMALLEST_FREE, KERNEL_HEAP_NUM_OF_FREE, KERNEL_HEAP_LOW_WATERMARK,
      KERNEL_HEAP_SUCCESSFUL_ALLOC, KERNEL_HEAP_SUCCESSFUL_FREE, KERNEL_NUM_OF_TASKS,
      DEVICE_TYPE, KERNEL_TASK_DETAILS, KERNEL_MCU_UTILIZATION]
  · simp [serializeTaskEntry, leafValue_node, leafValue_leaf, leafValueList_nil,
      leafValueList_cons, Option.or, taskPercentage, cDiv, hdiv,
      KERNEL_TASK_ID, KERNEL_TASK_NAME, KERNEL_TASK_STATUS, KERNEL_TASK_PRIORITY,
      KERNEL_TASK_ABS_CYCLES, KERNEL_TASK_PERCENTAGE, KERNEL_STACK_HIGH_WATERMARK]

/-- C5 witness: the amended statement at totalTime 200 with one idle task
of 60 cycles: uptime 200, utilization (200-60)/(200/100) = 70, task
percentage 60/(200/100) = 30. -/
theorem claim_C5_encoded_formulas_witness :
    (100 ≤ (200 : Nat))
    ∧ (serializeKernelRuntimeStats 16
        ⟨[], [⟨2, ['I', 'D', 'L', 'E'], 0, 0, 60, 9⟩], 200,
          ⟨0, 0, 0, 0, 0, 0, 0⟩⟩).leafValue? KERNEL_MCU_UPTIME
        = some (Scalar.sint (some 200))
    ∧ (serializeKernelRuntimeStats 16
        ⟨[], [⟨2, ['I', 'D', 'L', 'E'], 0, 0, 60, 9⟩], 200,
          ⟨0, 0, 0, 0, 0, 0, 0⟩⟩).leafValue? KERNEL_MCU_UTILIZATION
        = some (Scalar.sint (some 70))
    ∧ (serializeTaskEntry 200 ⟨2, ['I', 'D', 'L', 'E'], 0, 0, 60, 9⟩).leafValue?
        KERNEL_TASK_PERCENTAGE = some (Scalar.sint (some 30)) := by
  have h := claim_C5_encoded_formulas 16
    ⟨[], [⟨2, ['I', 'D', 'L', 'E'], 0, 0, 60, 9⟩], 200, ⟨0, 0, 0, 0, 0, 0, 0⟩⟩
    (by norm_num)
  exact ⟨by norm_num, h.1, h.2.1.trans (by decide),
    (h.2.2 ⟨2, ['I', 'D', 'L', 'E'], 0, 0, 60, 9⟩ (by simp)).trans (by decide)⟩

/-- C7: a task name equal to the reserved idle name "IDLE" — compared
case-sensitively up to the name-length bound, the name being a well-formed
C string terminating within the bound — is detected as the idle task and
its cycle count is captured as the idle time; any other name (including
strict extensions like "IDLE2" and strict prefixes like "IDL") is never so
classified. -/
theorem claim_C7_idle_detection (maxLen : Nat) (hm : 4 < maxLen) :
    (∀ s : List Char, (∀ c ∈ s, c ≠ Char.ofNat 0) → s.length < maxLen →
        (taskNameFilterIdle maxLen s = TASK_NAME_EQUAL ↔ s = idleName))
    ∧ (∀ (tasks : List TaskStatus) (t : TaskStatus), t.pcTaskName = idleName →
        ulIdleTimeOf maxLen (tasks ++ [t]) = t.ulRunTimeCounter)
    ∧ (∀ tasks : List TaskStatus,
        (∀ t ∈ tasks, (∀ c ∈ t.pcTaskName, c ≠ Char.ofNat 0)
          ∧ t.pcTaskName ≠ idleName) →
        ulIdleTimeOf maxLen tasks = 0) := by
  refine ⟨fun s hn _hlen => ?_,
    fun tasks t ht => ulIdleTimeOf_append_idle maxLen hm tasks t ht,
    fun tasks h => ulIdleTimeOf_eq_zero maxLen hm tasks h⟩
  rw [taskNameFilterIdle_eq maxLen s hm hn]
  constructor
  · intro h1
    by_contra hne
    rw [if_neg hne] at h1
    exact absurd h1 (by decide)
  · intro h1
    rw [if_pos h1]

/-- C7 witness: at bound 16, "IDLE" is detected, "IDLE2" and "IDL" are
not, and an idle task's 42 cycles are captured. -/
theorem claim_C7_idle_detection_witness :
    (4 < 16)
    ∧ taskNameFilterIdle 16 ['I', 'D', 'L', 'E'] = TASK_NAME_EQUAL
    ∧ taskNameFilterIdle 16 ['I', 'D', 'L', 'E', '2'] ≠ TASK_NAME_EQUAL
    ∧ taskNameFilterIdle 16 ['I', 'D', 'L'] ≠ TASK_NAME_EQUAL
    ∧ ulIdleTimeOf 16
        [⟨1, ['A'], 0, 0, 5, 0⟩, ⟨2, ['I', 'D', 'L', 'E'], 0, 0, 42, 0⟩] = 42 := by
  have h := claim_C7_idle_detection 16 (by norm_num)
  refine ⟨by norm_num, ?_, ?_, ?_, ?_⟩
  · exact (h.1 ['I', 'D', 'L', 'E'] (by decide) (by norm_num)).mpr rfl
  · intro hc
    exact absurd ((h.1 ['I', 'D', 'L', 'E', '2'] (by decide) (by norm_num)).mp hc)
      (by decide)
  · intro hc
    exact absurd ((h.1 ['I', 'D', 'L'] (by decide) (by norm_num)).mp hc) (by decide)
  · exact h.2.1 [⟨1, ['A'], 0, 0, 5, 0⟩] ⟨2, ['I', 'D', 'L', 'E'], 0, 0, 42, 0⟩ rfl

end Defender
